import Mathlib

/-!
# The Render Engine — core runtime, shallow embedding

A shallow embedding of the runtime core of the TheRenderEngine JavaScript
game engine: the `R.Engine` lifecycle / frame-scheduler object
(`engine.js`), and the `R.engine.BaseObject` event bookkeeping plus the
`R.components.render.Billboard2D` render-cache component
(`billboard2d.js`).

Conventions of the embedding:
* Timestamps and durations are natural numbers of milliseconds
  (`R.now()` is integer milliseconds; `fpsClock = Math.floor(1000/fps)`
  and `frameTime = R.now() - worldTime` are integers).
* The live-object counter is an `Int`: `R.Engine.destroy` decrements it
  unconditionally, so it can go negative.
* JavaScript callbacks and handlers are identified by `Nat` tokens;
  timers in the pool by their `String` names.
* Side effects on external collaborators (clearing the global timeout,
  invoking a shutdown callback, cancelling a timer, destroying the
  default context, blitting an image) are recorded in explicit event
  traces so that ordering claims can be stated.
-/

namespace RenderEngine

/-- `Math.round (num / den)` for natural `num` and positive natural `den`:
JavaScript rounds half up, i.e. `Math.round x = Math.floor (x + 0.5)`,
which on a non-negative rational `num / den` is `(2*num + den) / (2*den)`
in integer arithmetic. -/
def jsRound (num den : Nat) : Nat :=
  (2 * num + den) / (2 * den)

/-- The engine-global state of `R.Engine` (the fields the runtime core
reads and writes; metric/debug-display fields are omitted).
`defaultContext` records whether the default rendering context is
non-null; `stepOne` is the `_stepOne` single-step flag (0 or 1). -/
structure Engine where
  idRef : Nat
  livingObjects : Int
  fpsClock : Nat
  FPS : Option Nat
  frameTime : Nat
  started : Bool
  running : Bool
  shuttingDown : Bool
  skipFrames : Bool
  totalFrames : Nat
  droppedFrames : Nat
  stepOne : Nat
  worldTime : Nat
  lastTime : Nat
  liveTime : Nat
  upTime : Nat
  downTime : Nat
  pauseTime : Nat
  shutdownCallbacks : List Nat
  timerPool : List String
  defaultContext : Bool
  deriving Repr, DecidableEq

/-- The initial values of the `R.Engine` fields as declared in the
source (`fpsClock: 16`, `skipFrames: true`, everything else zero /
false / empty). -/
def Engine.init : Engine where
  idRef := 0
  livingObjects := 0
  fpsClock := 16
  FPS := none
  frameTime := 0
  started := false
  running := false
  shuttingDown := false
  skipFrames := true
  totalFrames := 0
  droppedFrames := 0
  stepOne := 0
  worldTime := 0
  lastTime := 0
  liveTime := 0
  upTime := 0
  downTime := 0
  pauseTime := 0
  shutdownCallbacks := []
  timerPool := []
  defaultContext := true

/-! ## FPS configuration (`setFPS`, `getFrameTime`) -/

/-- `R.Engine.setFPS(fps)`: asserts `fps != 0` (a fatal programmer
error), then sets `fpsClock = Math.floor(1000 / fps)` and resets the
cached `FPS` to `undefined`.  The assertion failure is modelled as
`Except.error`; on error no field is written (the assert precedes the
assignments). -/
def setFPS (s : Engine) (fps : Nat) : Except String Engine :=
  if fps = 0 then
    .error "You cannot have a framerate of zero!"
  else
    .ok { s with fpsClock := 1000 / fps, FPS := none }

/-- `R.Engine.getFrameTime()`: returns `fpsClock`. -/
def getFrameTime (s : Engine) : Nat :=
  s.fpsClock

/-! ## Frame scheduler (`engineTimer`) -/

/-- The next-tick delay computed at the end of `engineTimer`:
`var f = nextFrame - R.Engine.frameTime` (with `nextFrame` still at its
initial value `fpsClock`), then
`nextFrame = (skipFrames ? (f > 0 ? f : nextFrame) : fpsClock)`. -/
def nextFrameDelay (fpsClock frameTime : Nat) (skipFrames : Bool) : Nat :=
  let f : Int := (fpsClock : Int) - (frameTime : Int)
  if skipFrames then (if 0 < f then f.toNat else fpsClock) else fpsClock

/-- The dropped-frame increment of `engineTimer`:
`droppedFrames += (f <= 0 ? Math.round((f * -1) / fpsClock) : 0)`
with `f = fpsClock - frameTime`. -/
def droppedFramesDelta (fpsClock frameTime : Nat) : Nat :=
  let f : Int := (fpsClock : Int) - (frameTime : Int)
  if f ≤ 0 then jsRound (frameTime - fpsClock) fpsClock else 0

/-- Result of one `engineTimer` invocation: the updated engine state and
the delay handed to `setTimeout` for the next tick (`none` when the tick
does not reschedule itself). -/
structure TickResult where
  state : Engine
  nextDelay : Option Nat
  deriving Repr, DecidableEq

/-- `R.Engine.engineTimer()`, one tick.  `now` is the value `R.now()`
returns when `worldTime` is sampled, and `cost` is the measured duration
of the root-context traversal, so that `frameTime = R.now() - worldTime
= cost` after the update returns.  Guards in source order: return if
`shuttingDown`; return if `!running && _stepOne == 0`.  Then (since
`getDefaultContext()` lazily creates the context, it is never null) the
frame is rendered: `worldTime` is `_pauseTime` when stepping, else
`now`; `frameTime` is accumulated into `_pauseTime` when stepping;
`liveTime`, `totalFrames`, `droppedFrames` are updated, and the next
delay is computed.  A stepping tick clears `_stepOne` and does not
reschedule. -/
def engineTimer (s : Engine) (now cost : Nat) : TickResult :=
  if s.shuttingDown then ⟨s, none⟩
  else if !s.running && s.stepOne == 0 then ⟨s, none⟩
  else
    let wt := if s.stepOne == 1 then s.pauseTime else now
    let s1 : Engine :=
      { s with
        worldTime := wt
        lastTime := wt
        frameTime := cost
        pauseTime := if s.stepOne == 1 then s.pauseTime + cost else s.pauseTime
        liveTime := wt - s.upTime
        totalFrames := s.totalFrames + 1
        droppedFrames := s.droppedFrames + droppedFramesDelta s.fpsClock cost }
    if s.stepOne == 1 then ⟨{ s1 with stepOne := 0 }, none⟩
    else ⟨s1, some (nextFrameDelay s.fpsClock cost s.skipFrames)⟩

/-! ## Object registry (`create`, `destroy`) -/

/-- `R.Engine.create(obj)`.  The result is `Except.error` when the
`Assert((started === true), ...)` fails; otherwise `(state, returned id,
destroyedImmediately)` where `destroyedImmediately` records that
`obj.destroy()` was invoked on the candidate before returning `null`.
On the shutting-down path `create` itself touches neither `idRef` nor
`livingObjects`.

Modelled from the spec: `obj.destroy()` on the refused candidate is
`R.engine.PooledObject.destroy`, which is not under `src/`; per the
Identity Registry invariant ("live count is decremented exactly once per
object that was counted at creation") destroying a candidate that was
never counted leaves `livingObjects` unchanged, so the refusal branch
returns the state untouched. -/
def create (s : Engine) (objName : String) : Except String (Engine × Option String × Bool) :=
  if s.shuttingDown then
    .ok (s, none, true)
  else if !s.started then
    .error "Creating an object when the engine is stopped!"
  else
    let s1 := { s with idRef := s.idRef + 1 }
    let objId := objName ++ toString s1.idRef
    .ok ({ s1 with livingObjects := s1.livingObjects + 1 }, some objId, false)

/-- `R.Engine.destroy(obj)`: a `null` argument is ignored with a
warning (the returned `Bool` records that the warning was logged);
otherwise `livingObjects` is decremented. -/
def destroy (s : Engine) (obj : Option String) : Engine × Bool :=
  match obj with
  | none => (s, true)
  | some _ => ({ s with livingObjects := s.livingObjects - 1 }, false)

/-! ## Shutdown (`onShutdown`, `shutdown`) -/

/-- `R.Engine.onShutdown(fn)`: returns immediately when
`shuttingDown === true`, otherwise pushes `fn` onto
`shutdownCallbacks`. -/
def onShutdown (s : Engine) (fn : Nat) : Engine :=
  if s.shuttingDown then s
  else { s with shutdownCallbacks := s.shutdownCallbacks ++ [fn] }

/-- Observable external actions performed by `shutdown`. -/
inductive Ev where
  | clearGlobalTimeout
  | callback (fn : Nat)
  | cancelTimer (name : String)
  | destroyContext
  deriving Repr, DecidableEq

/-- Result of one `shutdown()` call: the updated state, the trace of
external actions it performed, and — when the paused-but-started branch
was taken — the delay of the `setTimeout` that re-issues `shutdown()`. -/
structure ShutdownResult where
  state : Engine
  trace : List Ev
  scheduledRerun : Option Nat
  deriving Repr, DecidableEq

/-- `R.Engine.shutdown()`, one call (`now` is `R.now()` used for
`downTime`).  In source order: return if already `shuttingDown`; set
`shuttingDown = true`; if `!running && started`, set `running = true`,
schedule `shutdown()` again after `fpsClock * 2` ms and return;
otherwise tear down: clear `started`, clear the global timeout, drain
`shutdownCallbacks` front-first invoking each, cancel every pooled
timer and empty the pool, record `downTime`, clear `running`, destroy
the default context, warn if `livingObjects != 0`, null the default
context and clear `shuttingDown`. -/
def shutdown (s : Engine) (now : Nat) : ShutdownResult :=
  if s.shuttingDown then ⟨s, [], none⟩
  else
    let s0 := { s with shuttingDown := true }
    if !s0.running && s0.started then
      ⟨{ s0 with running := true }, [], some (s0.fpsClock * 2)⟩
    else
      ⟨{ s0 with
          started := false
          shutdownCallbacks := []
          timerPool := []
          downTime := now
          running := false
          defaultContext := false
          shuttingDown := false },
        Ev.clearGlobalTimeout ::
          (s0.shutdownCallbacks.map Ev.callback ++
            s0.timerPool.map Ev.cancelTimer ++ [Ev.destroyContext]),
        none⟩

/-! ## `R.engine.BaseObject` event bookkeeping -/

/-- A JavaScript-object-style string-keyed map: assignment overwrites
an existing key, `delete` removes it.  Values are `Option Nat` because a
key can be assigned `undefined` (`none`) and still be present. -/
def setEntry (events : List (String × Option Nat)) (k : String) (v : Option Nat) :
    List (String × Option Nat) :=
  if events.any (fun p => p.1 = k) then
    events.map (fun p => if p.1 = k then (k, v) else p)
  else
    events ++ [(k, v)]

/-- `delete events[k]`. -/
def delEntry (events : List (String × Option Nat)) (k : String) :
    List (String × Option Nat) :=
  events.filter (fun p => ¬ p.1 = k)

/-- `k in events`: the key is present (even when its value is
`undefined`). -/
def hasKey (events : List (String × Option Nat)) (k : String) : Bool :=
  events.any (fun p => p.1 = k)

/-- The per-object state of `R.engine.BaseObject` that `addEvent` /
`removeEvent` consult: whether `getElement()` is non-null, and the
`events` bookkeeping map. -/
structure BaseObject where
  hasElement : Bool
  events : List (String × Option Nat)
  deriving Repr, DecidableEq

/-- `R.engine.BaseObject.addEvent(ref, type, data, fn)`.  `refName` is
`null` (`none`) or `ref.getName()`; `func` is the effective handler
`$.isFunction(data) ? data : fn`.  For a `null` ref the handler is
attached to `document.body` and the bookkeeping entry
`events["document," + type]` is assigned the local variable `func` —
which at that point is still `undefined` (it is declared by a hoisted
`var` inside the `else` branch and only assigned there), so the entry is
present with value `none`.  For a non-null ref, only when the object
has an element: the handler is attached and
`events[ref.getName() + "," + type] = func`. -/
def addEvent (obj : BaseObject) (refName : Option String) (ty : String) (func : Nat) :
    BaseObject :=
  match refName with
  | none =>
      { obj with events := setEntry obj.events ("document," ++ ty) none }
  | some n =>
      if obj.hasElement then
        { obj with events := setEntry obj.events (n ++ "," ++ ty) (some func) }
      else obj

/-- `R.engine.BaseObject.removeEvent(ref, type)`.  For a `null` ref the
`document.body` handler is cleared but the bookkeeping entry
`events["document," + type]` is NOT deleted.  For a non-null ref, only
when the object has an element: the handler (if recorded) is detached,
and `delete events[ref.getName() + "," + type]` runs regardless of
whether a handler was found. -/
def removeEvent (obj : BaseObject) (refName : Option String) (ty : String) : BaseObject :=
  match refName with
  | none => obj
  | some n =>
      if obj.hasElement then
        { obj with events := delEntry obj.events (n ++ "," ++ ty) }
      else obj

/-! ## `R.components.render.Billboard2D` render cache -/

/-- The billboard mode constants `REDRAW = 0` and `NORMAL = 1`. -/
inductive BBMode where
  | redraw
  | normal
  deriving Repr, DecidableEq

/-- The per-component state of `Billboard2D`: the mode, the cached
snapshot image (`billboard`, a jQuery `<img/>` whose `src` is the
rendered snapshot — identified here by a `Nat` token), and the cached
host rectangle `hostRect`. -/
structure Billboard2D where
  mode : BBMode
  billboard : Option Nat
  hostRect : Option Nat
  deriving Repr, DecidableEq

/-- The `Billboard2D` constructor: asserts the linked component is a
render component (not modelled further), then sets
`mode = REDRAW`; `billboard` and `hostRect` start at their `null`
prototype values. -/
def Billboard2D.new : Billboard2D where
  mode := .redraw
  billboard := none
  hostRect := none

/-- `Billboard2D.regenerate()`: `mode = REDRAW`, `hostRect = null`,
then `getGameObject().markDirty()` (an external effect on the host). -/
def regenerate (b : Billboard2D) : Billboard2D :=
  { b with mode := .redraw, hostRect := none }

/-- Observable actions of one `Billboard2D.execute` pass. -/
inductive BBEv where
  | transformOrigin (push : Bool)
  | drawImage
  | blitFailed
  | debugRect
  | destroyPoint
  deriving Repr, DecidableEq

/-- `Billboard2D.execute(renderContext, time, dt)`, one draw pass.
`baseOk` is the result of `this.base(...)`: when false, execute returns
at once.  Otherwise: in REDRAW mode the linked component is rendered to
an offscreen snapshot (`snapshot`) stored in the `<img/>` and the mode
becomes NORMAL; then `transformOrigin(ctx, true)` is applied, the
snapshot blit `renderContext.drawImage(...)` is attempted inside
`try/catch` (`blitFails` tells whether it throws; the catch block is
empty, so a failure is swallowed), the debug rectangle is drawn when
`debugMode`, `transformOrigin(ctx, false)` restores the origin, and the
temporary point `o` is destroyed. -/
def execute (b : Billboard2D) (baseOk : Bool) (snapshot : Nat) (blitFails debugMode : Bool) :
    Billboard2D × List BBEv :=
  if !baseOk then (b, [])
  else
    let b1 :=
      if b.mode = BBMode.redraw then
        { b with billboard := some snapshot, mode := BBMode.normal }
      else b
    (b1,
      [BBEv.transformOrigin true,
       if blitFails then BBEv.blitFailed else BBEv.drawImage] ++
        (if debugMode then [BBEv.debugRect] else []) ++
        [BBEv.transformOrigin false, BBEv.destroyPoint])

/-! ## Helper lemmas -/

/-- `jsRound num den` agrees with the mathematical rounding of the
rational `num / den` (JavaScript `Math.round` rounds half up, as does
Mathlib `round` via `round x = ⌊x + 1/2⌋`). -/
theorem jsRound_eq_round (num den : Nat) (hd : 0 < den) :
    (jsRound num den : ℤ) = round ((num : ℚ) / (den : ℚ)) := by
  have hden : (den : ℚ) ≠ 0 := Nat.cast_ne_zero.mpr hd.ne'
  rw [round_eq]
  have h1 : (num : ℚ) / (den : ℚ) + 1 / 2 =
      ((2 * num + den : ℤ) : ℚ) / ((2 * den : ℕ) : ℚ) := by
    push_cast
    field_simp
    ring
  rw [h1, Rat.floor_intCast_div_natCast]
  unfold jsRound
  push_cast
  ring_nf

/-- Deleting a key from the events map removes every entry under that
key. -/
theorem hasKey_delEntry (es : List (String × Option Nat)) (k : String) :
    hasKey (delEntry es k) k = false := by
  simp [hasKey, delEntry, List.any_filter]

/-- A concrete running engine (after `startup(); run();`), used by
witnesses and counterexamples. -/
def runningEngine : Engine :=
  { Engine.init with started := true, running := true }

/-- A concrete paused-but-started engine. -/
def pausedEngine : Engine :=
  { Engine.init with started := true, running := false }

/-- A concrete engine mid-shutdown. -/
def shuttingDownEngine : Engine :=
  { Engine.init with started := true, running := true, shuttingDown := true }

/-- A concrete started (not yet running) engine. -/
def startedEngine : Engine :=
  { Engine.init with started := true }

/-- A concrete running engine with two shutdown callbacks and one
pooled timer. -/
def shutdownScenarioEngine : Engine :=
  { Engine.init with
      started := true
      running := true
      shutdownCallbacks := [1, 2]
      timerPool := ["worldTimer"] }

/-! ## Claims -/

/-- Claim C8: for every `f > 0`, after `setFPS(f)` the call
`getFrameTime()` returns `Math.floor(1000 / f)`; and `setFPS(0)` fails
with the assertion "You cannot have a framerate of zero!", leaving
`fpsClock` unchanged (the assert precedes the assignment, so on error
the caller's state is untouched). -/
theorem setFPS_floor_getFrameTime (s : Engine) (f : Nat) (hf : 0 < f) :
    (∃ s', setFPS s f = Except.ok s' ∧
        (getFrameTime s' : ℤ) = ⌊(1000 : ℚ) / (f : ℚ)⌋) ∧
    setFPS s 0 = Except.error "You cannot have a framerate of zero!" := by
  refine ⟨⟨{ s with fpsClock := 1000 / f, FPS := none }, ?_, ?_⟩, ?_⟩
  · simp [setFPS, hf.ne']
  · show ((1000 / f : ℕ) : ℤ) = ⌊(1000 : ℚ) / (f : ℚ)⌋
    have h1000 : (1000 : ℚ) = ((1000 : ℤ) : ℚ) := by norm_num
    rw [h1000, Rat.floor_intCast_div_natCast]
    norm_cast
  · simp [setFPS]

/-- Witness for claim C8 at `f = 60` (so `fpsClock = 16`). -/
theorem setFPS_floor_getFrameTime_witness :
    0 < 60 ∧
    ((∃ s', setFPS Engine.init 60 = Except.ok s' ∧
        (getFrameTime s' : ℤ) = ⌊(1000 : ℚ) / ((60 : ℕ) : ℚ)⌋) ∧
      setFPS Engine.init 0 = Except.error "You cannot have a framerate of zero!") :=
  ⟨by decide, setFPS_floor_getFrameTime Engine.init 60 (by decide)⟩

/-- Claim C1, as stated, is false on the code: on an over-budget tick
(`frameTime = 40 > 16 = fpsClock`) under the skip-frames policy the
next tick is scheduled after the FULL `fpsClock` (16 ms), which is not
smaller than `fpsClock`; the dropped-frame increment
`round((40-16)/16) = 2` does hold. -/
theorem engineTimer_overrun_counterexample :
    runningEngine.skipFrames = true ∧
    runningEngine.fpsClock = 16 ∧
    (engineTimer runningEngine 100 40).state.frameTime = 40 ∧
    (engineTimer runningEngine 100 40).nextDelay = some 16 ∧
    ¬ (16 < runningEngine.fpsClock) ∧
    (engineTimer runningEngine 100 40).state.droppedFrames =
      runningEngine.droppedFrames + 2 := by
  decide

/-- Claim C1 (amended): on a tick under the skip-frames policy whose
measured traversal cost exceeds the frame budget, the next tick is
scheduled after exactly `fpsClock` (the full target — it is the
under-budget case that reschedules sooner), and `droppedFrames`
increases by exactly `round((frameTime - fpsClock) / fpsClock)`. -/
theorem engineTimer_overrun_full_clock (s : Engine) (now cost : Nat)
    (hsd : s.shuttingDown = false) (hrun : s.running = true) (hstep : s.stepOne = 0)
    (hskip : s.skipFrames = true) (hc : 0 < s.fpsClock) (hover : s.fpsClock < cost) :
    (engineTimer s now cost).nextDelay = some s.fpsClock ∧
    ((engineTimer s now cost).state.droppedFrames : ℤ) =
      (s.droppedFrames : ℤ) +
        round (((cost : ℚ) - (s.fpsClock : ℚ)) / (s.fpsClock : ℚ)) := by
  have hdelay : nextFrameDelay s.fpsClock cost s.skipFrames = s.fpsClock := by
    unfold nextFrameDelay
    have hf : ¬ (0 : ℤ) < (s.fpsClock : ℤ) - (cost : ℤ) := by omega
    simp [hskip, hf]
  have hdrop : droppedFramesDelta s.fpsClock cost = jsRound (cost - s.fpsClock) s.fpsClock := by
    unfold droppedFramesDelta
    have hf : (s.fpsClock : ℤ) - (cost : ℤ) ≤ 0 := by omega
    simp [hf]
  have hcast : ((cost - s.fpsClock : ℕ) : ℚ) = (cost : ℚ) - (s.fpsClock : ℚ) :=
    Nat.cast_sub hover.le
  constructor
  · simp [engineTimer, hsd, hrun, hstep, hdelay]
  · simp only [engineTimer, hsd, hrun, hstep]
    simp only [Bool.not_true, Bool.false_and, if_false, beq_iff_eq]
    norm_num
    rw [hdrop]
    rw [jsRound_eq_round _ _ hc, hcast]

/-- Witness for claim C1's amended theorem at `fpsClock = 16`,
`cost = 40`. -/
theorem engineTimer_overrun_full_clock_witness :
    runningEngine.shuttingDown = false ∧ runningEngine.running = true ∧
    runningEngine.stepOne = 0 ∧ runningEngine.skipFrames = true ∧
    0 < runningEngine.fpsClock ∧ runningEngine.fpsClock < 40 ∧
    ((engineTimer runningEngine 100 40).nextDelay = some runningEngine.fpsClock ∧
      ((engineTimer runningEngine 100 40).state.droppedFrames : ℤ) =
        (runningEngine.droppedFrames : ℤ) +
          round (((40 : ℚ) - (runningEngine.fpsClock : ℚ)) / (runningEngine.fpsClock : ℚ))) :=
  ⟨rfl, rfl, rfl, rfl, by decide, by decide,
    engineTimer_overrun_full_clock runningEngine 100 40 rfl rfl rfl rfl
      (by decide) (by decide)⟩

/-- Claim C2, evaluated at the failing input: calling `shutdown()` on a
paused-but-started engine sets `running = true` and schedules a deferred
`shutdown()` after `fpsClock * 2` ms — but that first call leaves
`shuttingDown = true`, so the re-issued `shutdown()` returns at the
`if (R.Engine.shuttingDown)` guard with no effect at all: `started`
stays true, no callback runs, no timer is cancelled, the pool is not
emptied, the context is not destroyed, `shuttingDown` is never
cleared.  The code's own comment says the deferred call should
"re-perform the shutdown", so this is a defect in the code, not in the
claim. -/
theorem shutdown_paused_rerun_noop :
    (shutdown pausedEngine 500).scheduledRerun = some (pausedEngine.fpsClock * 2) ∧
    (shutdown pausedEngine 500).state.running = true ∧
    (shutdown pausedEngine 500).state.shuttingDown = true ∧
    shutdown (shutdown pausedEngine 500).state 600 =
      ⟨(shutdown pausedEngine 500).state, [], none⟩ ∧
    (shutdown (shutdown pausedEngine 500).state 600).state.started = true ∧
    (shutdown (shutdown pausedEngine 500).state 600).state.shuttingDown = true ∧
    (shutdown (shutdown pausedEngine 500).state 600).trace = [] := by
  decide

/-- Claim C3, as stated, is false on the code: for the null (global)
owner, `removeEvent(null, "click")` detaches the document-level handler
but does NOT delete the `events["document,click"]` bookkeeping entry —
the key is still present afterwards. -/
theorem removeEvent_null_owner_counterexample :
    hasKey (removeEvent ⟨true, [("document,click", some 7)]⟩ none "click").events
      "document,click" = true := by
  decide

/-- Claim C3 (amended): for a non-null owner on an object with an
attached element, `removeEvent(owner, type)` deletes the bookkeeping
entry `owner.getName() + "," + type` whether or not a handler was found
to detach; for the null owner the handler is detached from the document
but the `"document," + type` entry is NOT deleted (the events map is
left unchanged). -/
theorem removeEvent_deletes_entry (obj : BaseObject) (n ty : String)
    (h : obj.hasElement = true) :
    hasKey (removeEvent obj (some n) ty).events (n ++ "," ++ ty) = false ∧
    (∀ ty2 : String, removeEvent obj none ty2 = obj) := by
  constructor
  · simp only [removeEvent, h, if_true]
    exact hasKey_delEntry obj.events (n ++ "," ++ ty)
  · intro ty2
    rfl

/-- Witness for claim C3's amended theorem: an object with an element
and an entry for `("billboard", "click")` but no recorded handler for
`("ghost", "click")` — both keys are removed regardless. -/
theorem removeEvent_deletes_entry_witness :
    (⟨true, [("billboard,click", some 7)]⟩ : BaseObject).hasElement = true ∧
    (hasKey (removeEvent ⟨true, [("billboard,click", some 7)]⟩
        (some "billboard") "click").events ("billboard" ++ "," ++ "click") = false ∧
      (∀ ty2 : String,
        removeEvent (⟨true, [("billboard,click", some 7)]⟩ : BaseObject) none ty2 =
          ⟨true, [("billboard,click", some 7)]⟩)) :=
  ⟨rfl, removeEvent_deletes_entry ⟨true, [("billboard,click", some 7)]⟩
    "billboard" "click" rfl⟩

/-- Claim C4: `create(obj)` while `shuttingDown` returns `null` (the
`none` in the result triple), invokes `obj.destroy()` immediately (the
`true` flag), and leaves the whole engine state — in particular `idRef`
and `livingObjects` — unchanged (the returned state is `s` itself). -/
theorem create_during_shutdown (s : Engine) (nm : String)
    (h : s.shuttingDown = true) :
    create s nm = Except.ok (s, none, true) := by
  simp [create, h]

/-- Witness for claim C4 on a concrete mid-shutdown engine. -/
theorem create_during_shutdown_witness :
    shuttingDownEngine.shuttingDown = true ∧
    create shuttingDownEngine "SpriteObj" =
      Except.ok (shuttingDownEngine, none, true) :=
  ⟨rfl, create_during_shutdown shuttingDownEngine "SpriteObj" rfl⟩

/-- Claim C5: on the teardown path of `shutdown()` (not already
shutting down, engine running), with callbacks `cb1` then `cb2`
registered, the action trace is exactly: clear the global timeout, then
`cb1`, then `cb2` (each invoked exactly once, in FIFO registration
order), then the cancel of every pooled timer, then the context
destruction — so every callback invocation precedes every timer cancel;
and afterwards the timer pool and the callback queue are empty. -/
theorem shutdown_callbacks_fifo_before_timers (s : Engine) (now cb1 cb2 : Nat)
    (hsd : s.shuttingDown = false) (hrun : s.running = true)
    (hcbs : s.shutdownCallbacks = [cb1, cb2]) :
    (shutdown s now).trace =
      Ev.clearGlobalTimeout :: Ev.callback cb1 :: Ev.callback cb2 ::
        (s.timerPool.map Ev.cancelTimer ++ [Ev.destroyContext]) ∧
    (shutdown s now).state.timerPool = [] ∧
    (shutdown s now).state.shutdownCallbacks = [] := by
  simp [shutdown, hsd, hrun, hcbs]

/-- Witness for claim C5 on a concrete running engine with two
callbacks and one pooled timer. -/
theorem shutdown_callbacks_fifo_before_timers_witness :
    shutdownScenarioEngine.shuttingDown = false ∧
    shutdownScenarioEngine.running = true ∧
    shutdownScenarioEngine.shutdownCallbacks = [1, 2] ∧
    ((shutdown shutdownScenarioEngine 900).trace =
        Ev.clearGlobalTimeout :: Ev.callback 1 :: Ev.callback 2 ::
          (shutdownScenarioEngine.timerPool.map Ev.cancelTimer ++ [Ev.destroyContext]) ∧
      (shutdown shutdownScenarioEngine 900).state.timerPool = [] ∧
      (shutdown shutdownScenarioEngine 900).state.shutdownCallbacks = []) :=
  ⟨rfl, rfl, rfl,
    shutdown_callbacks_fifo_before_timers shutdownScenarioEngine 900 1 2 rfl rfl rfl⟩

/-- Claim C6: on an engine that accepts creation (started, not
shutting down), `create` then `destroy` of the created object leaves
`livingObjects` at its value from before the `create`; and `destroy`
of `null` only logs a warning (the `true` flag) and changes nothing. -/
theorem create_then_destroy_living (s : Engine) (nm : String)
    (h1 : s.shuttingDown = false) (h2 : s.started = true) :
    (∃ s' objId, create s nm = Except.ok (s', some objId, false) ∧
        (destroy s' (some objId)).1.livingObjects = s.livingObjects) ∧
    (∀ t : Engine, destroy t none = (t, true)) := by
  constructor
  · refine ⟨{ s with idRef := s.idRef + 1, livingObjects := s.livingObjects + 1 },
      nm ++ toString (s.idRef + 1), ?_, ?_⟩
    · simp [create, h1, h2]
    · simp [destroy]
  · intro t
    rfl

/-- Witness for claim C6 on a concrete started engine. -/
theorem create_then_destroy_living_witness :
    startedEngine.shuttingDown = false ∧ startedEngine.started = true ∧
    ((∃ s' objId, create startedEngine "HostObj" = Except.ok (s', some objId, false) ∧
        (destroy s' (some objId)).1.livingObjects = startedEngine.livingObjects) ∧
      (∀ t : Engine, destroy t none = (t, true))) :=
  ⟨rfl, rfl, create_then_destroy_living startedEngine "HostObj" rfl rfl⟩

/-- Claim C7: a freshly constructed `Billboard2D` is in REDRAW mode;
one draw pass (`execute` with the base render check passing) from
REDRAW mode leaves it in NORMAL mode; and `regenerate()` puts any
billboard back in REDRAW mode with its cached host rectangle
cleared. -/
theorem billboard_mode_machine (b : Billboard2D) (snap : Nat) (bf dm : Bool)
    (h : b.mode = BBMode.redraw) :
    Billboard2D.new.mode = BBMode.redraw ∧
    (execute b true snap bf dm).1.mode = BBMode.normal ∧
    (∀ b2 : Billboard2D,
      (regenerate b2).mode = BBMode.redraw ∧ (regenerate b2).hostRect = none) := by
  refine ⟨rfl, ?_, fun b2 => ⟨rfl, rfl⟩⟩
  simp [execute, h]

/-- Witness for claim C7 on a freshly constructed billboard. -/
theorem billboard_mode_machine_witness :
    Billboard2D.new.mode = BBMode.redraw ∧
    (Billboard2D.new.mode = BBMode.redraw ∧
      (execute Billboard2D.new true 5 false false).1.mode = BBMode.normal ∧
      (∀ b2 : Billboard2D,
        (regenerate b2).mode = BBMode.redraw ∧ (regenerate b2).hostRect = none)) :=
  ⟨rfl, billboard_mode_machine Billboard2D.new 5 false false rfl⟩

/-- Claim C9: in NORMAL mode, a draw pass whose snapshot blit fails
(`drawImage` throws) still completes normally: the component state is
untouched, the trace shows the transform origin being restored
(`transformOrigin false`) and the temporary point destroyed after the
failed blit, and no `drawImage` success — only that object's drawing is
skipped. -/
theorem execute_blit_failure_swallowed (b : Billboard2D) (snap : Nat) (dm : Bool)
    (h : b.mode = BBMode.normal) :
    (execute b true snap true dm).1 = b ∧
    BBEv.transformOrigin false ∈ (execute b true snap true dm).2 ∧
    BBEv.destroyPoint ∈ (execute b true snap true dm).2 ∧
    BBEv.blitFailed ∈ (execute b true snap true dm).2 ∧
    BBEv.drawImage ∉ (execute b true snap true dm).2 := by
  have hm : ¬ b.mode = BBMode.redraw := by
    rw [h]
    intro hc
    cases hc
  cases dm <;> simp [execute, hm]

/-- Witness for claim C9 on a billboard already in NORMAL mode. -/
theorem execute_blit_failure_swallowed_witness :
    (⟨BBMode.normal, some 5, none⟩ : Billboard2D).mode = BBMode.normal ∧
    ((execute ⟨BBMode.normal, some 5, none⟩ true 9 true false).1 =
        (⟨BBMode.normal, some 5, none⟩ : Billboard2D) ∧
      BBEv.transformOrigin false ∈
        (execute ⟨BBMode.normal, some 5, none⟩ true 9 true false).2 ∧
      BBEv.destroyPoint ∈
        (execute ⟨BBMode.normal, some 5, none⟩ true 9 true false).2 ∧
      BBEv.blitFailed ∈
        (execute ⟨BBMode.normal, some 5, none⟩ true 9 true false).2 ∧
      BBEv.drawImage ∉
        (execute ⟨BBMode.normal, some 5, none⟩ true 9 true false).2) :=
  ⟨rfl, execute_blit_failure_swallowed ⟨BBMode.normal, some 5, none⟩ 9 false rfl⟩

/-- Claim C10: `onShutdown(fn)` called while `shuttingDown` is true is
a silent no-op — the state (and so the callback queue) is unchanged, so
`fn` is never invoked by the teardown that drains the queue. -/
theorem onShutdown_while_shutting_down (s : Engine) (fn : Nat)
    (h : s.shuttingDown = true) :
    onShutdown s fn = s ∧
    (onShutdown s fn).shutdownCallbacks = s.shutdownCallbacks := by
  have he : onShutdown s fn = s := by simp [onShutdown, h]
  exact ⟨he, by rw [he]⟩

/-- Witness for claim C10 on a concrete mid-shutdown engine. -/
theorem onShutdown_while_shutting_down_witness :
    shuttingDownEngine.shuttingDown = true ∧
    (onShutdown shuttingDownEngine 42 = shuttingDownEngine ∧
      (onShutdown shuttingDownEngine 42).shutdownCallbacks =
        shuttingDownEngine.shutdownCallbacks) :=
  ⟨rfl, onShutdown_while_shutting_down shuttingDownEngine 42 rfl⟩

end RenderEngine
